import Mathlib

/-!
Verification of the PMR dashboard pipeline against its sources
(app.py and the .ipynb_checkpoints variant): column resolution,
value normalization, status classification, filtering, and grouped
aggregation.  Tables are modelled column-wise, as pandas stores them:
an ordered list of named columns of cells.
-/

set_option maxRecDepth 40000

unseal Rat.mul Rat.inv Rat.add Rat.sub Rat.ofScientific

namespace PMRSpec

/-- Decidable equality of fallible results, comparing constructors and
payloads. -/
instance {ε α : Type} [DecidableEq ε] [DecidableEq α] : DecidableEq (Except ε α) :=
  fun a b =>
    match a, b with
    | .ok x, .ok y =>
      if h : x = y then isTrue (by rw [h]) else isFalse (by intro hc; cases hc; exact h rfl)
    | .error x, .error y =>
      if h : x = y then isTrue (by rw [h]) else isFalse (by intro hc; cases hc; exact h rfl)
    | .ok _, .error _ => isFalse (by intro hc; cases hc)
    | .error _, .ok _ => isFalse (by intro hc; cases hc)

/-- Cell of a loaded table: a numeric value, a text value, or a missing
value (pandas NaN / None).  Numbers are modelled as rationals. -/
inductive Cell where
  | num (q : ℚ)
  | str (s : String)
  | missing
deriving DecidableEq

/-- Numeric value of a digit list, most significant digit first. -/
def digitsVal (ds : List Char) : Nat :=
  ds.foldl (fun n c => 10 * n + (c.toNat - 48)) 0

/-- Characters with surrounding whitespace removed, the effect of
Python str.strip(). -/
def trimChars (l : List Char) : List Char :=
  ((l.dropWhile Char.isWhitespace).reverse.dropWhile Char.isWhitespace).reverse

/-- Text with surrounding whitespace removed. -/
def trimStr (s : String) : String :=
  String.mk (trimChars s.data)

/-- Decimal-literal parser modelling how numeric conversion reads the
cell texts appearing in PMR sheets: optional sign, integer digits,
optional fractional part, surrounding whitespace ignored.  Returns none
when the text is not such a literal. -/
def parseRat (s : String) : Option ℚ :=
  let cs := trimChars s.data
  let (neg, cs1) :=
    match cs with
    | '-' :: r => (true, r)
    | '+' :: r => (false, r)
    | _ => (false, cs)
  let intPart := cs1.takeWhile Char.isDigit
  let rest := cs1.dropWhile Char.isDigit
  let val? : Option ℚ :=
    match rest with
    | [] => if intPart.isEmpty then none else some (digitsVal intPart)
    | '.' :: r2 =>
      let fracPart := r2.takeWhile Char.isDigit
      let rest2 := r2.dropWhile Char.isDigit
      if rest2.isEmpty && !(intPart.isEmpty && fracPart.isEmpty) then
        some ((digitsVal intPart : ℚ) + (digitsVal fracPart : ℚ) / (10 : ℚ) ^ fracPart.length)
      else none
    | _ => none
  val?.map (fun v => if neg then -v else v)

/-- Elementwise pd.to_numeric with errors="coerce" (app.py lines 136-141,
145 and 163): numbers pass through, texts are parsed, parse failures and
missing cells become missing, and the call never raises. -/
def toNumeric : Cell → Option ℚ
  | .num q => some q
  | .str s => parseRat s
  | .missing => none

/-- Text with every percent sign removed: the .str.replace step of
app.py line 140 (the pattern is one character, so every occurrence is
removed, not only a trailing one). -/
def stripPct (s : String) : String :=
  String.mk (s.data.filter (fun c => c != '%'))

/-- Conversion float(text) as used by .astype(float): accepts decimal
literals and the text nan (the printed form of a float NaN); any other
text raises ValueError, modelled as none.  In particular float of the
empty text or of arbitrary words fails. -/
def floatOfText (s : String) : Option (Option ℚ) :=
  let t := trimStr s
  if t = "nan" then some none else (parseRat s).map some

/-- One cell of the chain .astype(str).str.replace.astype(float) on
app.py line 140.  A numeric cell prints and reparses to itself, a float
NaN prints as nan and reparses to NaN, and a text cell has percent signs
removed and is then converted, raising (modelled as error) when the
conversion fails. -/
def plannedCoerce : Cell → Except Unit (Option ℚ)
  | .num q => .ok (some q)
  | .missing => .ok none
  | .str s =>
    match floatOfText (stripPct s) with
    | some v => .ok v
    | none => .error ()

/-- Bool test that pat occurs verbatim at the head of l. -/
def headMatch : List Char → List Char → Bool
  | [], _ => true
  | _ :: _, [] => false
  | p :: ps, c :: cs => p == c && headMatch ps cs

/-- Tail of the quarter pattern (Q digit) Output Performance. -/
def opTail : List Char := " Output Performance".data

/-- Tail of the year pattern Y (4 digits) Approved Budget. -/
def abTail : List Char := " Approved Budget".data

/-- All matches of the quarter pattern (Q digit) Output Performance in a
text, scanning left to right without overlap, collecting the captured
quarter labels: re.findall of app.py line 95. -/
def findQuarters (l : List Char) : List String :=
  match l with
  | [] => []
  | [_] => []
  | c :: d :: rest =>
    if c = 'Q' && d.isDigit && headMatch opTail rest then
      String.mk [c, d] :: findQuarters (List.drop opTail.length rest)
    else
      findQuarters (d :: rest)
termination_by l.length
decreasing_by
  · simp [List.length_drop]
    omega
  · simp

/-- All matches of the year pattern Y (4 digits) Approved Budget in a
text, scanning left to right without overlap, collecting the captured
four-digit year labels: re.findall of app.py line 96. -/
def findYears (l : List Char) : List String :=
  match l with
  | c :: d1 :: d2 :: d3 :: d4 :: rest =>
    if c = 'Y' && d1.isDigit && d2.isDigit && d3.isDigit && d4.isDigit
        && headMatch abTail rest then
      String.mk [d1, d2, d3, d4] :: findYears (List.drop abTail.length rest)
    else
      findYears (d1 :: d2 :: d3 :: d4 :: rest)
  | _ => []
termination_by l.length
decreasing_by
  · simp [List.length_drop]
    omega
  · simp

/-- Lexicographic comparison of char lists by code point, the order
Python uses to compare strings. -/
def lexLeb : List Char → List Char → Bool
  | [], _ => true
  | _ :: _, [] => false
  | c :: cs, d :: ds =>
    if c.toNat < d.toNat then true
    else if d.toNat < c.toNat then false
    else lexLeb cs ds

/-- Comparison of strings by code point, as Python sorted orders them. -/
def strLeb (a b : String) : Bool := lexLeb a.data b.data

/-- Lexicographic comparison of key pairs, the order pandas uses for a
two-column groupby key. -/
def pairLeb (a b : String × String) : Bool :=
  if a.1 = b.1 then strLeb a.2 b.2 else strLeb a.1 b.1

/-- Insertion of an element into a list, before the first element it
compares at or below. -/
def insertLe {α : Type} (leb : α → α → Bool) (x : α) : List α → List α
  | [] => [x]
  | y :: ys => if leb x y then x :: y :: ys else y :: insertLe leb x ys

/-- Insertion sort by a comparison. -/
def sortLe {α : Type} (leb : α → α → Bool) : List α → List α
  | [] => []
  | x :: xs => insertLe leb x (sortLe leb xs)

/-- List with duplicates removed, keeping the first occurrence of each
element: the distinct values of a list in first-seen order. -/
def dedupKeepFirst {α : Type} [DecidableEq α] (l : List α) : List α :=
  match l with
  | [] => []
  | x :: xs => x :: dedupKeepFirst (xs.filter (fun y => y ≠ x))
termination_by l.length
decreasing_by
  simp only [List.length_cons]
  exact Nat.lt_succ_of_le (List.length_filter_le _ _)

/-- Python sorted(set(l)) on strings: duplicates removed, then sorted
ascending by code point. -/
def sortedSet (l : List String) : List String :=
  sortLe strLeb (dedupKeepFirst l)

/-- Quarter labels detected by app.py line 95: re.findall of the quarter
pattern over the space-joined column names, then sorted(set(...)).  The
scan runs over the joined text, not per column. -/
def availableQuarters (cols : List String) : List String :=
  sortedSet (findQuarters (String.intercalate " " cols).data)

/-- Year labels detected by app.py line 96, as for availableQuarters. -/
def availableYears (cols : List String) : List String :=
  sortedSet (findYears (String.intercalate " " cols).data)

/-- Table modelled the way pandas stores a DataFrame: an ordered list of
named columns of cells. -/
abbrev Table := List (String × List Cell)

/-- Column names of a table, in order. -/
def colNames (t : Table) : List String := t.map Prod.fst

/-- Column selection df[c] / df.get(c): the cells of the first column
named c, if any. -/
def getCol : Table → String → Option (List Cell)
  | [], _ => none
  | (n, col) :: rest, c => if n = c then some col else getCol rest c

/-- Column assignment df[c] = vs: replaces the first column named c, or
appends a new column of that name at the end. -/
def setCol (t : Table) (c : String) (vs : List Cell) : Table :=
  match t with
  | [] => [(c, vs)]
  | (n, col) :: rest =>
    if n = c then (c, vs) :: rest else (n, col) :: setCol rest c vs

/-- Number of rows of a table (the length of its first column). -/
def nRows (t : Table) : Nat :=
  match t with
  | [] => 0
  | (_, col) :: _ => col.length

/-- Column names stripped of surrounding whitespace, app.py line 93. -/
def stripNames (t : Table) : Table :=
  t.map (fun p => (trimStr p.1, p.2))

/-- Column name of the quarter output performance (app.py line 126). -/
def colOutput (q : String) : String := q ++ " Output Performance"

/-- Column name of the quarter budget performance (app.py line 127). -/
def colBudget (q : String) : String := q ++ " Budget Performance"

/-- Column name of the approved budget of a year (app.py line 128). -/
def colApproved (y : String) : String := "Y" ++ y ++ " Approved Budget"

/-- Column name of the budget released to date (app.py line 129). -/
def colReleased (q : String) : String := "Budget Released as at " ++ q

/-- Column name of the planned quarter performance (app.py line 130). -/
def colPlanned (q : String) : String := "Planned " ++ q ++ " Perf"

/-- Column name of the quarter output target (app.py line 133). -/
def colKpi (q : String) : String := q ++ " Output Target (in numbers)"

/-- Name of the raw tracking-score column (app.py line 144). -/
def tprRawName : String := "Cummulative TPR Score"

/-- Cell holding a coerced numeric value: a number, or missing. -/
def cellOfOpt : Option ℚ → Cell
  | some q => .num q
  | none => .missing

/-- Cell holding a derived text value: a text, or missing. -/
def cellOfOptStr : Option String → Cell
  | some s => .str s
  | none => .missing

/-- Values a column gets from df[c] = pd.to_numeric(df.get(c),
errors="coerce"): the coerced cells when the column exists, and a
column of missing values (the broadcast NaN scalar) when it does not. -/
def coercedCol (t : Table) (c : String) : List Cell :=
  match getCol t c with
  | some cells => cells.map (fun cl => cellOfOpt (toNumeric cl))
  | none => List.replicate (nRows t) Cell.missing

/-- One assignment of the Clean Data section, app.py lines 136-139 and
141: the named column is overwritten (or created) in place with its
numerically coerced values. -/
def coerceColInPlace (t : Table) (c : String) : Table :=
  setCol t c (coercedCol t c)

/-- The whole planned-performance column after the chain of app.py line
140.  When the column is absent the default is a column of Python None
values, whose printed form None makes float() raise; pandas raises the
same ValueError, modelled as error (unless the table has no rows). -/
def plannedColumn (t : Table) (c : String) : Except Unit (List (Option ℚ)) :=
  match getCol t c with
  | some cells => cells.mapM plannedCoerce
  | none => if nRows t = 0 then .ok [] else .error ()

/-- Table after the first four assignments of the Clean Data section,
app.py lines 136-139, in source order. -/
def cleanStage4 (q y : String) (t : Table) : Table :=
  coerceColInPlace (coerceColInPlace (coerceColInPlace
    (coerceColInPlace t (colOutput q)) (colBudget q)) (colApproved y)) (colReleased q)

/-- Clean Data section of app.py lines 136-141, in source order: the six
period-addressed columns are coerced in place; the planned column can
raise, halting the load. -/
def cleanData (q y : String) (t : Table) : Except Unit Table :=
  match plannedColumn (cleanStage4 q y t) (colPlanned q) with
  | .error e => .error e
  | .ok vs =>
    .ok (coerceColInPlace
      (setCol (cleanStage4 q y t) (colPlanned q) (vs.map cellOfOpt)) (colKpi q))

/-- Maximum of the non-missing values of a column: pandas Series.max,
which skips NaN and is itself NaN (none) when every value is missing. -/
def maxSkipna (xs : List (Option ℚ)) : Option ℚ :=
  (xs.filterMap id).max?

/-- TPR Score normalization of app.py line 146: if the maximum
non-missing raw value is at most 1 the raw values are kept, otherwise
every value is divided by 100.  An all-missing column has max NaN, and
NaN compares False against 1, taking the division branch. -/
def tprScoreFixed (raw : List (Option ℚ)) : List (Option ℚ) :=
  match maxSkipna raw with
  | some m => if m ≤ 1 then raw else raw.map (Option.map (fun v => v / 100))
  | none => raw.map (Option.map (fun v => v / 100))

/-- Status classifier tpr_category of app.py lines 152-160, on an
already-coerced numeric score: missing maps to None (the text-equality
test against the empty text is always false on numbers), and otherwise
the 0.8 / 0.6 thresholds pick the three categories. -/
def tpr_category : Option ℚ → Option String
  | none => none
  | some s =>
    if s ≥ (0.8 : ℚ) then some "✅On Track"
    else if s ≥ (0.6 : ℚ) then some "⚠️At Risk"
    else some "❌Off Track"

/-- TPR section of app.py lines 143-164: when the raw score column is
absent the app stops with an error; otherwise line 146 writes the
scale-fixed scores to TPR Score, line 163 overwrites TPR Score with the
re-coerced raw scores, and line 164 derives TPR Status from that
overwritten column. -/
def addTpr (t : Table) : Except String Table :=
  if tprRawName ∈ colNames t then
    let raw := ((getCol t tprRawName).getD []).map toNumeric
    let ta := setCol t "TPR Score" ((tprScoreFixed raw).map cellOfOpt)
    let tb := setCol ta "TPR Score" (raw.map cellOfOpt)
    Except.ok (setCol tb "TPR Status" ((raw.map tpr_category).map cellOfOptStr))
  else
    Except.error "Column \x27Cummulative TPR Score\x27 not found in uploaded data."

/-- Load pipeline of app.py lines 92-164 after a table is read: strip
the column names, detect quarters and years (stopping with a warning
when either set is empty), take the first of each sorted set as the
active period, run the Clean Data section (whose line 140 can raise
ValueError), and derive the TPR columns. -/
def pipeline (t : Table) : Except String Table :=
  let t0 := stripNames t
  match availableQuarters (colNames t0) with
  | [] => Except.error "No quarter detected"
  | q :: _ =>
    match availableYears (colNames t0) with
    | [] => Except.error "No year detected"
    | y :: _ =>
      match cleanData q y t0 with
      | .error _ => Except.error "ValueError: could not convert string to float"
      | .ok t1 => addTpr t1

/-- Equality test of a cell against a selected text value, as a pandas
elementwise comparison: only a text cell equal to the value is True;
numbers and missing values compare False. -/
def cellEqStr (v : String) (c : Cell) : Bool :=
  match c with
  | .str s => s == v
  | _ => false

/-- Rows of one column selected by a boolean mask. -/
def applyMask : List Bool → List Cell → List Cell
  | b :: bs, c :: cs => if b then c :: applyMask bs cs else applyMask bs cs
  | _, _ => []

/-- Table with every column reduced to the rows a mask selects. -/
def maskFilter (m : List Bool) (t : Table) : Table :=
  t.map (fun p => (p.1, applyMask m p.2))

/-- Equality filter df[df[c] == v]: raises KeyError when the column is
absent, otherwise keeps exactly the rows whose cell in that column
equals the value. -/
def filterEq (t : Table) (c v : String) : Except String Table :=
  match getCol t c with
  | none => Except.error ("KeyError: " ++ c)
  | some col => Except.ok (maskFilter (col.map (cellEqStr v)) t)

/-- First filter pass, app.py lines 203-212: cascading equality filters
on TPR Status, then on the literal column name Sector (line 208 tests
the Sector column even though the dataset sector column is COFOG), then
MDA REVISED, then Programme / Project; a selection of All skips its
stage. -/
def firstPassFilter (t : Table) (selTpr selSector selMda selProj : String) :
    Except String Table :=
  match (if selTpr = "All" then Except.ok t else filterEq t "TPR Status" selTpr) with
  | .error e => .error e
  | .ok t1 =>
    match (if selSector = "All" then Except.ok t1 else filterEq t1 "Sector" selSector) with
    | .error e => .error e
    | .ok t2 =>
      match (if selMda = "All" then Except.ok t2 else filterEq t2 "MDA REVISED" selMda) with
      | .error e => .error e
      | .ok t3 =>
        if selProj = "All" then Except.ok t3
        else filterEq t3 "Programme / Project" selProj

/-- Second filter pass, app.py lines 253-266: as the first pass but the
sector stage correctly tests COFOG; the programme stage compares against
the name selected_project, which is never defined, so reaching it raises
NameError. -/
def secondPassFilter (t : Table) (selTpr selSector selMda selProj : String) :
    Except String Table :=
  match (if selTpr = "All" then Except.ok t else filterEq t "TPR Status" selTpr) with
  | .error e => .error e
  | .ok t1 =>
    match (if selSector = "All" then Except.ok t1 else filterEq t1 "COFOG" selSector) with
    | .error e => .error e
    | .ok t2 =>
      match (if selMda = "All" then Except.ok t2 else filterEq t2 "MDA REVISED" selMda) with
      | .error e => .error e
      | .ok t3 =>
        if selProj = "All" then Except.ok t3
        else Except.error "NameError: name \x27selected_project\x27 is not defined"

/-- Sum of the non-missing values of a column: pandas sum with skipna,
which is 0 on an all-missing or empty column. -/
def sumSkipna (xs : List (Option ℚ)) : ℚ :=
  (xs.filterMap id).sum

/-- Series.replace(0, pd.NA) on a scalar sum: zero becomes missing. -/
def replace0NA (x : ℚ) : Option ℚ :=
  if x = 0 then none else some x

/-- Scalar division with a possibly-missing denominator: missing
propagates, as pandas division by pd.NA. -/
def divNA (a : ℚ) (b : Option ℚ) : Option ℚ :=
  b.map (fun d => a / d)

/-- Series.fillna(0) on a scalar: missing becomes 0. -/
def fillna0 (x : Option ℚ) : ℚ :=
  x.getD 0

/-- AVG_BUDGET_PERF of one (sector, agency) group, checkpoint line 99:
the group rows carry (approved, released) pairs; the released sum is
divided by the approved sum with 0 first replaced by NA, the NA result
filled with 0, and the ratio scaled to percent. -/
def avgBudgetPerf (g : List (Option ℚ × Option ℚ)) : ℚ :=
  fillna0 (divNA (sumSkipna (g.map Prod.snd)) (replace0NA (sumSkipna (g.map Prod.fst)))) * 100

/-- Group keys of df.groupby on the (sector, agency) pair, checkpoint
line 92: pandas groupby defaults to sort=True, so the groups appear in
ascending lexicographic key order, not in first-seen order. -/
def groupbyKeys (ks : List (String × String)) : List (String × String) :=
  sortLe pairLeb (dedupKeepFirst ks)

/-- First-seen order of the distinct grouping keys in the source rows. -/
def firstSeenKeys (ks : List (String × String)) : List (String × String) :=
  dedupKeepFirst ks

/-- Options of the data-source radio control, app.py lines 37-40. -/
def sourceOptions : List String :=
  ["Explore Default reports", "Upload Excel File", "Enter Google Sheets Link"]

/-- Match of re.search(r"Q(\d)\s*(\d{4})", label) anchored at the head
of the text: a Q, one digit, any whitespace run, then four digits. -/
def matchLabelAt : List Char → Option (String × String)
  | 'Q' :: d :: rest =>
    if d.isDigit then
      match rest.dropWhile Char.isWhitespace with
      | e1 :: e2 :: e3 :: e4 :: _ =>
        if e1.isDigit && e2.isDigit && e3.isDigit && e4.isDigit then
          some (String.mk ['Q', d], String.mk [e1, e2, e3, e4])
        else none
      | _ => none
    else none
  | _ => none

/-- First match of re.search(r"Q(\d)\s*(\d{4})", label) anywhere in the
text, app.py line 111. -/
def findLabelQY : List Char → Option (String × String)
  | [] => none
  | c :: cs =>
    match matchLabelAt (c :: cs) with
    | some r => some r
    | none => findLabelQY cs

/-- Period inference of app.py lines 105-121: the fallbacks are the
first elements of the sorted detected sets; the branch that reads the
selected report label only runs under the source option Use GitHub
default, and inside it a parsed label quarter or year replaces a
fallback only when it is among the detected ones. -/
def inferActive (sourceOption selectedLabel : String)
    (aq ay : List String) : Option (String × String) :=
  match aq, ay with
  | q0 :: _, y0 :: _ =>
    some
      (if sourceOption = "Use GitHub default" then
        match findLabelQY selectedLabel.data with
        | some (q, y) =>
          ((if q ∈ aq then q else q0), (if y ∈ ay then y else y0))
        | none => (q0, y0)
      else (q0, y0))
  | _, _ => none

/-- Bool test that an Except value is a success. -/
def isOkE {ε α : Type} : Except ε α → Bool
  | .ok _ => true
  | .error _ => false

/-- Two-row input table of the end-to-end scenario: Row A (General,
Ministry X, score 85, output 0.9, approved 1000, released 500) and Row B
(General, Ministry Y, score 55, output 0.3, approved 0, released 0). -/
def scenarioTable : Table := [
  ("Q1 Output Performance", [Cell.num (9/10), Cell.num (3/10)]),
  ("Y2025 Approved Budget", [Cell.num 1000, Cell.num 0]),
  ("Budget Released as at Q1", [Cell.num 500, Cell.num 0]),
  ("Cummulative TPR Score", [Cell.num 85, Cell.num 55]),
  ("MDA REVISED", [Cell.str "Ministry X", Cell.str "Ministry Y"]),
  ("COFOG", [Cell.str "General", Cell.str "General"]),
  ("Programme / Project", [Cell.str "Prog A", Cell.str "Prog B"])]

/-- Scenario table extended with the planned-performance column the
Clean Data section requires in order not to raise. -/
def scenarioFixed : Table :=
  scenarioTable ++ [("Planned Q1 Perf", [Cell.num 50, Cell.num 30])]

/-- Single-column table holding the raw tracking scores 85 and 55. -/
def tprDemo : Table := [("Cummulative TPR Score", [Cell.num 85, Cell.num 55])]

/-- Normalized and classified two-row table used to exercise the filter
passes; as in every PMR dataset, the sector column is COFOG and there is
no column named Sector. -/
def filterDemo : Table := [
  ("COFOG", [Cell.str "General", Cell.str "General"]),
  ("MDA REVISED", [Cell.str "Ministry X", Cell.str "Ministry Y"]),
  ("Programme / Project", [Cell.str "Prog A", Cell.str "Prog B"]),
  ("TPR Status", [Cell.str "✅On Track", Cell.str "❌Off Track"])]

/-- Planned-performance column holding a percent text and a
non-numeric text. -/
def plannedDemo : Table := [("Planned Q1 Perf", [Cell.str "50%", Cell.str "abc"])]

/-- Table whose headers contain the quarter pattern only across the
boundary of two adjacent column names: no single column matches, yet the
space-joined header text does. -/
def crossTable : Table := [
  ("Total Q1", [Cell.num 1]),
  ("Output Performance", [Cell.num 1]),
  ("Y2025 Approved Budget", [Cell.num 1000]),
  ("Planned Q1 Perf", [Cell.num 50]),
  ("Cummulative TPR Score", [Cell.num 85])]

/-- One-row table whose planned column holds a percent text, next to the
raw tracking-score column. -/
def pctDemo : Table :=
  [("Planned Q1 Perf", [Cell.str "50%"]), ("Cummulative TPR Score", [Cell.num 85])]

/-- The table pctDemo after the Clean Data section for Q1 of 2025: the
planned cell is overwritten with the parsed number, the raw
tracking-score column is untouched, and the other period columns are
created all-missing. -/
def pctDemoClean : Table := [
  ("Planned Q1 Perf", [Cell.num 50]),
  ("Cummulative TPR Score", [Cell.num 85]),
  ("Q1 Output Performance", [Cell.missing]),
  ("Q1 Budget Performance", [Cell.missing]),
  ("Y2025 Approved Budget", [Cell.missing]),
  ("Budget Released as at Q1", [Cell.missing]),
  ("Q1 Output Target (in numbers)", [Cell.missing])]

/-- One-column table whose headers contain a year pattern but no quarter
pattern. -/
def noQuarterTable : Table := [("Y2025 Approved Budget", [Cell.num 1])]

unseal findQuarters findYears dedupKeepFirst

theorem lexLeb_total (a b : List Char) : lexLeb a b = true ∨ lexLeb b a = true := by
  induction a generalizing b with
  | nil => left; rfl
  | cons c cs ih =>
    cases b with
    | nil => right; rfl
    | cons d ds =>
      by_cases h1 : c.toNat < d.toNat
      · left; simp [lexLeb, h1]
      · by_cases h2 : d.toNat < c.toNat
        · right; simp [lexLeb, h2]
        · rcases ih ds with h | h
          · left; simp [lexLeb, h1, h2, h]
          · right; simp [lexLeb, h1, h2, h]

theorem strLeb_total (a b : String) : strLeb a b = true ∨ strLeb b a = true :=
  lexLeb_total a.data b.data

theorem pairLeb_total (a b : String × String) :
    pairLeb a b = true ∨ pairLeb b a = true := by
  by_cases h : a.1 = b.1
  · simpa [pairLeb, h] using strLeb_total a.2 b.2
  · have h2 : ¬ b.1 = a.1 := fun e => h e.symm
    simpa [pairLeb, h, h2] using strLeb_total a.1 b.1

theorem insertLe_head {α : Type} (leb : α → α → Bool) (x : α) (l : List α) :
    (insertLe leb x l).head? = some x ∨ (insertLe leb x l).head? = l.head? := by
  cases l with
  | nil => left; rfl
  | cons y ys =>
    by_cases h : leb x y = true
    · left; simp [insertLe, h]
    · right; simp [insertLe, h]

theorem chain_insertLe {α : Type} (leb : α → α → Bool)
    (htot : ∀ a b, leb a b = true ∨ leb b a = true) (x : α) (l : List α)
    (hl : List.Chain' (fun a b => leb a b = true) l) :
    List.Chain' (fun a b => leb a b = true) (insertLe leb x l) := by
  induction l with
  | nil => simp [insertLe]
  | cons y ys ih =>
    by_cases h : leb x y = true
    · simp only [insertLe, if_pos h]
      exact List.chain'_cons.mpr ⟨h, hl⟩
    · simp only [insertLe, if_neg h]
      have hyx : leb y x = true := by
        rcases htot x y with h2 | h2
        · exact absurd h2 h
        · exact h2
      have hih := ih hl.tail
      refine List.chain'_cons'.mpr ⟨?_, hih⟩
      intro z hz
      rcases insertLe_head leb x ys with hh | hh
      · rw [hh] at hz
        simp only [Option.mem_def, Option.some_inj] at hz
        rw [← hz]
        exact hyx
      · rw [hh] at hz
        exact (List.chain'_cons'.mp hl).1 z hz

theorem chain_sortLe {α : Type} (leb : α → α → Bool)
    (htot : ∀ a b, leb a b = true ∨ leb b a = true) (l : List α) :
    List.Chain' (fun a b => leb a b = true) (sortLe leb l) := by
  induction l with
  | nil => simp [sortLe]
  | cons x xs ih => exact chain_insertLe leb htot x _ ih

theorem insertLe_perm {α : Type} (leb : α → α → Bool) (x : α) (l : List α) :
    (insertLe leb x l).Perm (x :: l) := by
  induction l with
  | nil => exact List.Perm.refl _
  | cons y ys ih =>
    by_cases h : leb x y = true
    · simp [insertLe, h]
    · simp only [insertLe, if_neg h]
      exact (ih.cons y).trans (List.Perm.swap x y ys)

theorem sortLe_perm {α : Type} (leb : α → α → Bool) (l : List α) :
    (sortLe leb l).Perm l := by
  induction l with
  | nil => exact List.Perm.refl _
  | cons x xs ih => exact (insertLe_perm leb x (sortLe leb xs)).trans (ih.cons x)

theorem strNe_of_take_ne (n : Nat) {s t : String}
    (h : List.take n s.data ≠ List.take n t.data) : s ≠ t := by
  intro he
  exact h (by rw [he])

theorem strNe_of_last_ne {s t : String}
    (h : s.data.getLast? ≠ t.data.getLast?) : s ≠ t := by
  intro he
  exact h (by rw [he])

theorem appendNe_of_len_lt (q A B : String) (h : B.data.length < A.data.length) :
    q ++ A ≠ B := by
  intro he
  have hd : q.data ++ A.data = B.data := by rw [← String.data_append, he]
  have hlen := congrArg List.length hd
  simp only [List.length_append] at hlen
  omega

theorem appendNe_of_drop_ne (q A B : String)
    (hle : A.data.length ≤ B.data.length)
    (hne : List.drop (B.data.length - A.data.length) B.data ≠ A.data) :
    q ++ A ≠ B := by
  intro he
  have hd : q.data ++ A.data = B.data := by rw [← String.data_append, he]
  have hlen := congrArg List.length hd
  simp only [List.length_append] at hlen
  have hdrop : List.drop (q.data.length + 0) (q.data ++ A.data) = List.drop 0 A.data :=
    List.drop_append 0
  simp only [Nat.add_zero, List.drop_zero] at hdrop
  rw [hd] at hdrop
  have hq : q.data.length = B.data.length - A.data.length := by omega
  rw [hq] at hdrop
  exact hne hdrop

theorem appendNe_right (q A B : String) (h : A ≠ B) : q ++ A ≠ q ++ B := by
  intro he
  have hd : q.data ++ A.data = q.data ++ B.data := by
    rw [← String.data_append, ← String.data_append, he]
  exact h (String.ext (List.append_cancel_left hd))

theorem take_append_fixed (a s : String) (n : Nat) (h : n ≤ a.data.length) :
    List.take n (a ++ s).data = List.take n a.data := by
  rw [String.data_append]
  exact List.take_append_of_le_length h

theorem last_append_fixed (a s : String) (c : Char)
    (h : s.data.getLast? = some c) : (a ++ s).data.getLast? = some c := by
  rw [String.data_append, List.getLast?_append, h]
  rfl

theorem colApproved_take1 (y : String) : List.take 1 (colApproved y).data = ['Y'] := by
  show List.take 1 (("Y" ++ y) ++ " Approved Budget").data = ['Y']
  rw [take_append_fixed ("Y" ++ y) " Approved Budget" 1
      (by rw [String.data_append]; simp)]
  rw [take_append_fixed "Y" y 1 (by decide)]
  decide

theorem colReleased_take1 (q : String) : List.take 1 (colReleased q).data = ['B'] := by
  show List.take 1 ("Budget Released as at " ++ q).data = ['B']
  rw [take_append_fixed "Budget Released as at " q 1 (by decide)]
  decide

theorem colPlanned_take1 (q : String) : List.take 1 (colPlanned q).data = ['P'] := by
  show List.take 1 (("Planned " ++ q) ++ " Perf").data = ['P']
  rw [take_append_fixed ("Planned " ++ q) " Perf" 1
      (by rw [String.data_append]; simp)]
  rw [take_append_fixed "Planned " q 1 (by decide)]
  decide

theorem colPlanned_take2 (q : String) : List.take 2 (colPlanned q).data = ['P', 'l'] := by
  show List.take 2 (("Planned " ++ q) ++ " Perf").data = ['P', 'l']
  rw [take_append_fixed ("Planned " ++ q) " Perf" 2
      (by rw [String.data_append]; simp [Nat.le_add_right_of_le])]
  rw [take_append_fixed "Planned " q 2 (by decide)]
  decide

theorem colOutput_last (q : String) : (colOutput q).data.getLast? = some 'e' :=
  last_append_fixed q " Output Performance" 'e' (by decide)

theorem colBudget_last (q : String) : (colBudget q).data.getLast? = some 'e' :=
  last_append_fixed q " Budget Performance" 'e' (by decide)

theorem colApproved_last (y : String) : (colApproved y).data.getLast? = some 't' :=
  last_append_fixed ("Y" ++ y) " Approved Budget" 't' (by decide)

theorem colPlanned_last (q : String) : (colPlanned q).data.getLast? = some 'f' :=
  last_append_fixed ("Planned " ++ q) " Perf" 'f' (by decide)

theorem getCol_setCol_self (t : Table) (c : String) (vs : List Cell) :
    getCol (setCol t c vs) c = some vs := by
  induction t with
  | nil => simp [setCol, getCol]
  | cons p rest ih =>
    obtain ⟨n, col⟩ := p
    by_cases h : n = c
    · simp [setCol, h, getCol]
    · simp [setCol, h, getCol, ih]

theorem getCol_setCol_ne {c c2 : String} (hne : c ≠ c2) (t : Table) (vs : List Cell) :
    getCol (setCol t c vs) c2 = getCol t c2 := by
  induction t with
  | nil => simp [setCol, getCol, hne]
  | cons p rest ih =>
    obtain ⟨n, col⟩ := p
    by_cases h : n = c
    · subst h
      simp [setCol, getCol, hne, ih]
    · by_cases h2 : n = c2
      · simp [setCol, getCol, h, h2, Ne.symm hne]
      · simp [setCol, getCol, h, h2, ih]

theorem mem_colNames_setCol {t : Table} {c x : String} {vs : List Cell}
    (h : x ∈ colNames (setCol t c vs)) : x ∈ colNames t ∨ x = c := by
  induction t with
  | nil =>
    simp [setCol, colNames] at h
    exact Or.inr h
  | cons p rest ih =>
    obtain ⟨n, col⟩ := p
    by_cases hn : n = c
    · simp only [setCol, if_pos hn, colNames, List.map_cons, List.mem_cons] at h
      rcases h with h | h
      · exact Or.inr h
      · exact Or.inl (by simp [colNames, h])
    · simp only [setCol, if_neg hn, colNames, List.map_cons, List.mem_cons] at h
      rcases h with h | h
      · exact Or.inl (by simp [colNames, h])
      · rcases ih h with h2 | h2
        · exact Or.inl (by simp [colNames]; exact Or.inr (by simpa [colNames] using h2))
        · exact Or.inr h2

theorem cleanData_ok_shape {q y : String} {t t' : Table}
    (h : cleanData q y t = .ok t') :
    ∃ vs : List (Option ℚ),
      plannedColumn (cleanStage4 q y t) (colPlanned q) = .ok vs ∧
      t' = coerceColInPlace
        (setCol (cleanStage4 q y t) (colPlanned q) (vs.map cellOfOpt)) (colKpi q) := by
  cases hp : plannedColumn (cleanStage4 q y t) (colPlanned q) with
  | error e =>
    rw [cleanData, hp] at h
    cases h
  | ok vs =>
    rw [cleanData, hp] at h
    cases h
    exact ⟨vs, rfl, rfl⟩

theorem colOutput_ne_tpr (q : String) : colOutput q ≠ tprRawName :=
  appendNe_of_drop_ne q " Output Performance" tprRawName (by decide) (by decide)

theorem colBudget_ne_tpr (q : String) : colBudget q ≠ tprRawName :=
  appendNe_of_drop_ne q " Budget Performance" tprRawName (by decide) (by decide)

theorem colApproved_ne_tpr (y : String) : colApproved y ≠ tprRawName :=
  strNe_of_take_ne 1 (by rw [colApproved_take1]; decide)

theorem colReleased_ne_tpr (q : String) : colReleased q ≠ tprRawName :=
  strNe_of_take_ne 1 (by rw [colReleased_take1]; decide)

theorem colPlanned_ne_tpr (q : String) : colPlanned q ≠ tprRawName :=
  strNe_of_take_ne 1 (by rw [colPlanned_take1]; decide)

theorem colKpi_ne_tpr (q : String) : colKpi q ≠ tprRawName :=
  appendNe_of_len_lt q " Output Target (in numbers)" tprRawName (by decide)

theorem colReleased_ne_colOutput (q : String) : colReleased q ≠ colOutput q := by
  intro he
  have hd : ("Budget Released as at ").data ++ q.data =
      q.data ++ (" Output Performance").data := by
    rw [← String.data_append, ← String.data_append]
    exact congrArg String.data he
  have hlen := congrArg List.length hd
  simp only [List.length_append] at hlen
  have h1 : ("Budget Released as at ").data.length = 22 := by decide
  have h2 : (" Output Performance").data.length = 19 := by decide
  rw [h1, h2] at hlen
  omega

/-- Columns whose name differs from all six period-addressed names keep
their cells across the Clean Data section. -/
theorem getCol_cleanData_untouched {q y : String} {t t' : Table} {x : String}
    (h : cleanData q y t = Except.ok t')
    (h1 : colOutput q ≠ x) (h2 : colBudget q ≠ x) (h3 : colApproved y ≠ x)
    (h4 : colReleased q ≠ x) (h5 : colPlanned q ≠ x) (h6 : colKpi q ≠ x) :
    getCol t' x = getCol t x := by
  obtain ⟨vs, hp, ht⟩ := cleanData_ok_shape h
  subst ht
  simp only [coerceColInPlace, cleanStage4]
  rw [getCol_setCol_ne h6, getCol_setCol_ne h5, getCol_setCol_ne h4,
    getCol_setCol_ne h3, getCol_setCol_ne h2, getCol_setCol_ne h1]

/-- Claim C9 counterexample: cleaning the one-row table whose planned
column holds the text 50% overwrites that source column in place with
the number 50, so the original cell value is lost and cannot be
recomputed from the cleaned table. -/
theorem c9_cleanData_overwrites_planned :
    Except.map (fun t => getCol t "Planned Q1 Perf") (cleanData "Q1" "2025" pctDemo) =
      Except.ok (some [Cell.num 50]) ∧
    getCol pctDemo "Planned Q1 Perf" = some [Cell.str "50%"] ∧
    some [Cell.num 50] ≠ some [Cell.str "50%"] := by
  refine ⟨by decide, by decide, by decide⟩

/-- Claim C9 amended: the Clean Data section overwrites the six
period-addressed source columns in place with coerced values (shown for
the output column), while the raw tracking-score column and the identity
columns COFOG, MDA REVISED and Programme / Project keep their original
cells, so only those unaddressed columns remain recomputable from the
cleaned table. -/
theorem c9_cleanData_parallel (q y : String) (t t' : Table)
    (h : cleanData q y t = Except.ok t') :
    getCol t' tprRawName = getCol t tprRawName ∧
    getCol t' "COFOG" = getCol t "COFOG" ∧
    getCol t' "MDA REVISED" = getCol t "MDA REVISED" ∧
    getCol t' "Programme / Project" = getCol t "Programme / Project" ∧
    getCol t' (colOutput q) = some (coercedCol t (colOutput q)) := by
  refine ⟨?_, ?_, ?_, ?_, ?_⟩
  · exact getCol_cleanData_untouched h (colOutput_ne_tpr q) (colBudget_ne_tpr q)
      (colApproved_ne_tpr y) (colReleased_ne_tpr q) (colPlanned_ne_tpr q) (colKpi_ne_tpr q)
  · exact getCol_cleanData_untouched h
      (appendNe_of_len_lt q " Output Performance" "COFOG" (by decide))
      (appendNe_of_len_lt q " Budget Performance" "COFOG" (by decide))
      (strNe_of_take_ne 1 (by rw [colApproved_take1]; decide))
      (strNe_of_take_ne 1 (by rw [colReleased_take1]; decide))
      (strNe_of_take_ne 1 (by rw [colPlanned_take1]; decide))
      (appendNe_of_len_lt q " Output Target (in numbers)" "COFOG" (by decide))
  · exact getCol_cleanData_untouched h
      (appendNe_of_len_lt q " Output Performance" "MDA REVISED" (by decide))
      (appendNe_of_len_lt q " Budget Performance" "MDA REVISED" (by decide))
      (strNe_of_take_ne 1 (by rw [colApproved_take1]; decide))
      (strNe_of_take_ne 1 (by rw [colReleased_take1]; decide))
      (strNe_of_take_ne 1 (by rw [colPlanned_take1]; decide))
      (appendNe_of_len_lt q " Output Target (in numbers)" "MDA REVISED" (by decide))
  · exact getCol_cleanData_untouched h
      (appendNe_of_drop_ne q " Output Performance" "Programme / Project"
        (by decide) (by decide))
      (appendNe_of_drop_ne q " Budget Performance" "Programme / Project"
        (by decide) (by decide))
      (strNe_of_take_ne 1 (by rw [colApproved_take1]; decide))
      (strNe_of_take_ne 1 (by rw [colReleased_take1]; decide))
      (strNe_of_take_ne 2 (by rw [colPlanned_take2]; decide))
      (appendNe_of_len_lt q " Output Target (in numbers)" "Programme / Project" (by decide))
  · obtain ⟨vs, hp, ht⟩ := cleanData_ok_shape h
    subst ht
    simp only [coerceColInPlace, cleanStage4]
    rw [getCol_setCol_ne (show colKpi q ≠ colOutput q from
        appendNe_right q " Output Target (in numbers)" " Output Performance" (by decide)),
      getCol_setCol_ne (show colPlanned q ≠ colOutput q from
        strNe_of_last_ne (by rw [colPlanned_last, colOutput_last]; decide)),
      getCol_setCol_ne (colReleased_ne_colOutput q),
      getCol_setCol_ne (show colApproved y ≠ colOutput q from
        strNe_of_last_ne (by rw [colApproved_last, colOutput_last]; decide)),
      getCol_setCol_ne (show colBudget q ≠ colOutput q from
        appendNe_right q " Budget Performance" " Output Performance" (by decide)),
      getCol_setCol_self]

theorem c9_cleanData_parallel_witness :
    cleanData "Q1" "2025" pctDemo = Except.ok pctDemoClean ∧
    getCol pctDemoClean tprRawName = getCol pctDemo tprRawName :=
  ⟨by decide, (c9_cleanData_parallel "Q1" "2025" pctDemo pctDemoClean (by decide)).1⟩

/-- Claim C5 counterexample: in crossTable no single column matches the
quarter pattern, yet the pipeline does not halt: detection scans the
space-joined header text, where the pattern appears across the boundary
between the columns Total Q1 and Output Performance, so the load
succeeds. -/
theorem c5_cross_boundary_no_halt :
    ((colNames crossTable).all (fun c => (findQuarters c.data).isEmpty)) = true ∧
    availableQuarters (colNames crossTable) = ["Q1"] ∧
    isOkE (pipeline crossTable) = true := by
  refine ⟨by decide, by decide, by decide⟩

/-- Claim C5 amended: whenever the space-joined stripped header text
yields no quarter match, or no year match, or the discriminator column
Cummulative TPR Score is not among the stripped column names, the load
pipeline halts with an error (the dedicated warning, the dedicated
discriminator error, or the cleaning ValueError) and produces no
classified table for downstream filtering, aggregation or rendering. -/
theorem c5_pipeline_halts (t : Table)
    (h : availableQuarters (colNames (stripNames t)) = [] ∨
         availableYears (colNames (stripNames t)) = [] ∨
         tprRawName ∉ colNames (stripNames t)) :
    pipeline t = Except.error "No quarter detected" ∨
    pipeline t = Except.error "No year detected" ∨
    pipeline t = Except.error "ValueError: could not convert string to float" ∨
    pipeline t = Except.error
      "Column \x27Cummulative TPR Score\x27 not found in uploaded data." := by
  cases haq : availableQuarters (colNames (stripNames t)) with
  | nil =>
    left
    simp [pipeline, haq]
  | cons q qs =>
    cases hay : availableYears (colNames (stripNames t)) with
    | nil =>
      right; left
      simp [pipeline, haq, hay]
    | cons y ys =>
      have hTPR : tprRawName ∉ colNames (stripNames t) := by
        rcases h with h | h | h
        · rw [haq] at h; simp at h
        · rw [hay] at h; simp at h
        · exact h
      cases hcd : cleanData q y (stripNames t) with
      | error e =>
        right; right; left
        simp [pipeline, haq, hay, hcd]
      | ok t1 =>
        right; right; right
        have hnotin : tprRawName ∉ colNames t1 := by
          intro hmem
          obtain ⟨vs, hp, ht⟩ := cleanData_ok_shape hcd
          subst ht
          simp only [coerceColInPlace, cleanStage4] at hmem
          rcases mem_colNames_setCol hmem with hmem | hx
          · rcases mem_colNames_setCol hmem with hmem | hx
            · rcases mem_colNames_setCol hmem with hmem | hx
              · rcases mem_colNames_setCol hmem with hmem | hx
                · rcases mem_colNames_setCol hmem with hmem | hx
                  · rcases mem_colNames_setCol hmem with hmem | hx
                    · exact hTPR hmem
                    · exact colOutput_ne_tpr q hx.symm
                  · exact colBudget_ne_tpr q hx.symm
                · exact colApproved_ne_tpr y hx.symm
              · exact colReleased_ne_tpr q hx.symm
            · exact colPlanned_ne_tpr q hx.symm
          · exact colKpi_ne_tpr q hx.symm
        simp [pipeline, haq, hay, hcd, addTpr, hnotin]

theorem c5_pipeline_halts_witness :
    (availableQuarters (colNames (stripNames noQuarterTable)) = []) ∧
    (pipeline noQuarterTable = Except.error "No quarter detected" ∨
     pipeline noQuarterTable = Except.error "No year detected" ∨
     pipeline noQuarterTable = Except.error "ValueError: could not convert string to float" ∨
     pipeline noQuarterTable = Except.error
       "Column \x27Cummulative TPR Score\x27 not found in uploaded data.") :=
  ⟨by decide, c5_pipeline_halts noQuarterTable (Or.inl (by decide))⟩

/-- Claim C2 (confirmed): the status classifier is a pure function of
the score with thresholds 0.8 and 0.6: a missing score yields no
category, a score at or above 0.8 yields On Track, a score in [0.6, 0.8)
yields At Risk, a score below 0.6 yields Off Track; in particular 0.79
is At Risk, 0.8 is On Track, 0.59 is Off Track. -/
theorem c2_tpr_category_spec :
    tpr_category none = none ∧
    (∀ s : ℚ, (0.8 : ℚ) ≤ s → tpr_category (some s) = some "✅On Track") ∧
    (∀ s : ℚ, (0.6 : ℚ) ≤ s → s < (0.8 : ℚ) → tpr_category (some s) = some "⚠️At Risk") ∧
    (∀ s : ℚ, s < (0.6 : ℚ) → tpr_category (some s) = some "❌Off Track") ∧
    tpr_category (some (0.79 : ℚ)) = some "⚠️At Risk" ∧
    tpr_category (some (0.8 : ℚ)) = some "✅On Track" ∧
    tpr_category (some (0.59 : ℚ)) = some "❌Off Track" := by
  refine ⟨rfl, ?_, ?_, ?_, by decide, by decide, by decide⟩
  · intro s h
    simp only [tpr_category, ge_iff_le, if_pos h]
  · intro s h1 h2
    simp only [tpr_category, ge_iff_le, if_neg (not_le.mpr h2), if_pos h1]
  · intro s h
    have h8 : ¬ (0.8 : ℚ) ≤ s := not_le.mpr (h.trans (by norm_num))
    simp only [tpr_category, ge_iff_le, if_neg h8, if_neg (not_le.mpr h)]

theorem c2_tpr_category_spec_witness :
    ((0.6 : ℚ) ≤ (0.79 : ℚ) ∧ (0.79 : ℚ) < (0.8 : ℚ)) ∧
    tpr_category (some (0.79 : ℚ)) = some "⚠️At Risk" :=
  ⟨⟨by norm_num, by norm_num⟩,
    c2_tpr_category_spec.2.2.1 0.79 (by norm_num) (by norm_num)⟩

/-- Claim C6 counterexample: a group with approved sum 1000 and released
sum 500 has AVG_BUDGET_PERF 50, the percent-scaled value, not the plain
ratio 1/2 the claim states. -/
theorem c6_avgBudgetPerf_percent_counterexample :
    avgBudgetPerf [(some 1000, some 500)] = 50 ∧
    sumSkipna (List.map Prod.snd [((some 1000 : Option ℚ), (some 500 : Option ℚ))]) /
      sumSkipna (List.map Prod.fst [((some 1000 : Option ℚ), (some 500 : Option ℚ))]) = 1/2 ∧
    (50 : ℚ) ≠ 1/2 := by
  refine ⟨by decide, by decide, by decide⟩

/-- Claim C6 amended: for every group, AVG_BUDGET_PERF is 0 when the
approved sum is 0 (never missing or infinite), and otherwise equals 100
times the released sum divided by the approved sum. -/
theorem c6_avgBudgetPerf_guard (g : List (Option ℚ × Option ℚ)) :
    avgBudgetPerf g =
      if sumSkipna (g.map Prod.fst) = 0 then 0
      else 100 * (sumSkipna (g.map Prod.snd) / sumSkipna (g.map Prod.fst)) := by
  by_cases h : sumSkipna (g.map Prod.fst) = 0
  · simp [avgBudgetPerf, replace0NA, divNA, fillna0, h]
  · have hrep : replace0NA (sumSkipna (g.map Prod.fst)) =
        some (sumSkipna (g.map Prod.fst)) := by
      simp [replace0NA, h]
    simp only [avgBudgetPerf, divNA, fillna0, hrep, Option.map_some', Option.getD_some, if_neg h]
    ring

/-- Claim C7 counterexample: on source rows keyed (B, b) then (A, a),
the grouped aggregation lists (A, a) first, the sorted order, not the
first-seen order. -/
theorem c7_groupbyKeys_not_firstSeen :
    groupbyKeys [("B", "b"), ("A", "a")] = [("A", "a"), ("B", "b")] ∧
    firstSeenKeys [("B", "b"), ("A", "a")] = [("B", "b"), ("A", "a")] ∧
    groupbyKeys [("B", "b"), ("A", "a")] ≠ firstSeenKeys [("B", "b"), ("A", "a")] := by
  refine ⟨by decide, by decide, by decide⟩

/-- Claim C7 amended: for every input, the grouped aggregation lists its
group keys in ascending lexicographic order of the (sector, agency) key
(pandas groupby sort=True), one key per distinct first-seen key; being a
function of the input, the order is identical across repeated runs. -/
theorem c7_groupbyKeys_sorted_perm (ks : List (String × String)) :
    List.Chain' (fun a b => pairLeb a b = true) (groupbyKeys ks) ∧
    (groupbyKeys ks).Perm (firstSeenKeys ks) :=
  ⟨chain_sortLe pairLeb pairLeb_total _, sortLe_perm pairLeb _⟩

/-- Claim C10 (confirmed): for every source option actually offered, the
label-inference branch is dead, because its guard tests the source
option Use GitHub default, which is never among the offered options; so
the active quarter and year are always the first elements of the sorted
detected label sets, independent of the selected report label, and those
sets are chained ascending so the first element is the least. -/
theorem c10_inferActive_ignores_label (so label : String) (cols : List String)
    (hso : so ∈ sourceOptions) :
    so ≠ "Use GitHub default" ∧
    inferActive so label (availableQuarters cols) (availableYears cols) =
      ((availableQuarters cols).head?.bind (fun q0 =>
        (availableYears cols).head?.map (fun y0 => (q0, y0)))) ∧
    inferActive so label (availableQuarters cols) (availableYears cols) =
      inferActive so "" (availableQuarters cols) (availableYears cols) ∧
    List.Chain' (fun a b => strLeb a b = true) (availableQuarters cols) ∧
    List.Chain' (fun a b => strLeb a b = true) (availableYears cols) := by
  have hne : so ≠ "Use GitHub default" := by
    intro he
    rw [he] at hso
    exact absurd hso (by decide)
  have key : ∀ lab : String, ∀ aq ay : List String,
      inferActive so lab aq ay =
        (aq.head?.bind fun q0 => ay.head?.map fun y0 => (q0, y0)) := by
    intro lab aq ay
    cases aq with
    | nil => simp [inferActive]
    | cons q0 qs =>
      cases ay with
      | nil => simp [inferActive]
      | cons y0 ys => simp [inferActive, hne]
  refine ⟨hne, key label _ _, ?_, chain_sortLe strLeb strLeb_total _,
    chain_sortLe strLeb strLeb_total _⟩
  rw [key label, key ""]

theorem c10_inferActive_ignores_label_witness :
    ("Upload Excel File" ∈ sourceOptions) ∧
    inferActive "Upload Excel File" "Q3 2024 PMR Report"
        (availableQuarters ["Q1 Output Performance", "Y2025 Approved Budget"])
        (availableYears ["Q1 Output Performance", "Y2025 Approved Budget"]) =
      some ("Q1", "2025") := by
  refine ⟨by decide, ?_⟩
  rw [(c10_inferActive_ignores_label "Upload Excel File" "Q3 2024 PMR Report"
      ["Q1 Output Performance", "Y2025 Approved Budget"] (by decide)).2.1]
  decide

/-- Claim C1 (code bug): on raw scores 85 and 55, line 146 does compute
the normalized column raw / 100, but line 163 overwrites TPR Score with
the re-coerced raw values, so the column that status classification
consumes holds 85 and 55, not 0.85 and 0.55, and both rows classify as
On Track. -/
theorem c1_tprStatus_consumes_raw :
    tprScoreFixed [some 85, some 55] = [some ((17 : ℚ)/20), some ((11 : ℚ)/20)] ∧
    Except.map (fun t => getCol t "TPR Score") (addTpr tprDemo) =
      Except.ok (some [Cell.num 85, Cell.num 55]) ∧
    Except.map (fun t => getCol t "TPR Status") (addTpr tprDemo) =
      Except.ok (some [Cell.str "✅On Track", Cell.str "✅On Track"]) ∧
    (some [Cell.num 85, Cell.num 55] ≠
      some ((tprScoreFixed [some 85, some 55]).map cellOfOpt)) := by
  refine ⟨by decide, by decide, by decide, by decide⟩

/-- Claim C3 (code bug): on the two-row scenario table the resolver does
find quarter Q1 and year 2025, but the load crashes with ValueError in
the Clean Data section because the table has no Planned Q1 Perf column;
with that column supplied, Row B (score 55) classifies as On Track, not
Off Track, because classification consumes the raw score; the grouped
output mean of the checkpoint reads the column Q1 PMR Output
Performance, which the scenario table does not have (KeyError); only the
budget-ratio guard values match the expectation up to the percent
scale. -/
theorem c3_scenario_pipeline_eval :
    availableQuarters (colNames scenarioTable) = ["Q1"] ∧
    availableYears (colNames scenarioTable) = ["2025"] ∧
    pipeline scenarioTable =
      Except.error "ValueError: could not convert string to float" ∧
    Except.map (fun t => getCol t "TPR Status") (pipeline scenarioFixed) =
      Except.ok (some [Cell.str "✅On Track", Cell.str "✅On Track"]) ∧
    getCol scenarioTable "Q1 PMR Output Performance" = none ∧
    avgBudgetPerf [(some 1000, some 500)] = 50 ∧
    avgBudgetPerf [(some 0, some 0)] = 0 := by
  refine ⟨by decide, by decide, by decide, by decide, by decide, by decide, by decide⟩

/-- Claim C4 (code bug): with a sector selected, the first filter pass
tests the nonexistent column Sector and raises KeyError; with a
programme selected, the second pass compares against the undefined name
selected_project and raises NameError; with those stages unconstrained
the second pass does produce exactly the matching rows. -/
theorem c4_filter_passes_eval :
    firstPassFilter filterDemo "All" "General" "All" "All" =
      Except.error "KeyError: Sector" ∧
    secondPassFilter filterDemo "All" "All" "All" "Prog A" =
      Except.error "NameError: name \x27selected_project\x27 is not defined" ∧
    secondPassFilter filterDemo "All" "General" "Ministry X" "All" =
      Except.ok [
        ("COFOG", [Cell.str "General"]),
        ("MDA REVISED", [Cell.str "Ministry X"]),
        ("Programme / Project", [Cell.str "Prog A"]),
        ("TPR Status", [Cell.str "✅On Track"])] := by
  refine ⟨by decide, by decide, by decide⟩

/-- Claim C8 (code bug): the planned-column chain does strip percent
signs and parse the rest, but a cell whose content does not parse makes
astype(float) raise ValueError instead of producing a missing value, and
the same conversion raises on the default None column used when the
planned column is absent from a nonempty table. -/
theorem c8_plannedColumn_raises :
    plannedCoerce (Cell.str "50%") = Except.ok (some 50) ∧
    plannedColumn plannedDemo (colPlanned "Q1") = Except.error () ∧
    plannedColumn [("X", [Cell.num 1])] (colPlanned "Q1") = Except.error () := by
  refine ⟨by decide, by decide, by decide⟩

end PMRSpec
